import Mathlib

/-!
Verification of `crypto-ops/signing/pkcs11/ecdsa_sign.cpp`, a straight-line
PKCS#11 client that opens a session, logs in, generates a P-256 key pair,
signs a fixed byte string and verifies the signature.

The program is embedded shallowly as a function from an *environment* (the
return values and output parameters the external PKCS#11 token library
produces for each call site) to the *trace* of token-API calls the program
makes, the list of `malloc` requests it issues, and its final outcome
(normal completion, or `halt`: print the error code and `exit(-1)`).
All control flow of `main` is transcribed directly from the source.
-/

namespace EcdsaSign

/-! ### PKCS#11 constants

Numeric values are the standard PKCS#11 identifiers supplied by the vendor
header `dy_pkcs11.h`; the client passes them opaquely, so only their
identity matters to the claims. -/

def CKR_OK : Nat := 0
def CKF_SERIAL_SESSION : Nat := 0x4
def CKF_RW_SESSION : Nat := 0x2
def CKU_USER : Nat := 1
def CKM_EC_KEY_PAIR_GEN : Nat := 0x1040
def CKM_ECDSA_SHA256 : Nat := 0x1044
def CKA_TOKEN : Nat := 0x1
def CKA_EC_PARAMS : Nat := 0x180
def CKA_SIGN : Nat := 0x108
def CK_FALSE : Nat := 0
def CK_TRUE : Nat := 1

/-- A PKCS#11 mechanism structure: mechanism identifier, parameter pointer
(`none` models `NULL`), parameter length. -/
structure CK_MECHANISM where
  mechanism : Nat
  pParameter : Option Nat
  ulParameterLen : Nat
deriving DecidableEq, Repr

/-- A PKCS#11 attribute: attribute type, the bytes the value pointer points
at, and the stated value length. -/
structure CK_ATTRIBUTE where
  attrType : Nat
  pValue : List Nat
  ulValueLen : Nat
deriving DecidableEq, Repr

/-- The bytes of a C string literal buffer: the characters followed by the
terminating NUL byte (so `sizeof` of the array is the length of this list). -/
def cstr (s : String) : List Nat := s.data.map Char.toNat ++ [0]

/-- C `strlen`: number of characters before the NUL terminator (the literals
in this program contain no interior NUL). -/
def strlen (s : String) : Nat := s.data.length

/-- Models `const char data_to_sign[] = "data to sign";` as the byte contents of the
array, terminator included. -/
def data_to_sign : List Nat := cstr "data to sign"

/-- Models `char password[] = "";`. -/
def password : String := ""

/-- Models `CK_BYTE p256_curve[] = {0x06, 0x08, 0x2a, 0x86, 0x48, 0xce, 0x3d, 0x03, 0x01, 0x07};` -/
def p256_curve : List Nat := [0x06, 0x08, 0x2a, 0x86, 0x48, 0xce, 0x3d, 0x03, 0x01, 0x07]

/-- Models `CK_MECHANISM ecdsa_gen = {CKM_EC_KEY_PAIR_GEN, NULL, 0};` -/
def ecdsa_gen : CK_MECHANISM := ⟨CKM_EC_KEY_PAIR_GEN, none, 0⟩

/-- Models `CK_MECHANISM ecdsa_sign = {CKM_ECDSA_SHA256, NULL, 0};` -/
def ecdsa_sign : CK_MECHANISM := ⟨CKM_ECDSA_SHA256, none, 0⟩

/-- The public-key template: `{{CKA_TOKEN, &ck_false, sizeof(CK_BBOOL)},
{CKA_EC_PARAMS, p256_curve, sizeof(p256_curve)}}` (`sizeof(CK_BBOOL)` = 1). -/
def pub_template : List CK_ATTRIBUTE :=
  [⟨CKA_TOKEN, [CK_FALSE], 1⟩, ⟨CKA_EC_PARAMS, p256_curve, p256_curve.length⟩]

/-- The private-key template: `{{CKA_TOKEN, &ck_true, sizeof(CK_BBOOL)},
{CKA_SIGN, &ck_true, sizeof(CK_BBOOL)}}`. -/
def prv_template : List CK_ATTRIBUTE :=
  [⟨CKA_TOKEN, [CK_TRUE], 1⟩, ⟨CKA_SIGN, [CK_TRUE], 1⟩]

/-- One call into the token API, with the arguments the program passes.
Pointer arguments are modelled by the data pointed at (for input buffers)
or by an abstract pointer value with `none` for `NULL` (for the signature
output buffer). Output-only parameters are not arguments of the call. -/
inductive Call where
  | cInit (pInitArgs : Option Nat)
  | cOpen (slotId flags app notifyCb : Nat)
  | cLogin (session userType : Nat) (pin : List Nat) (pinLen : Nat)
  | cGenKeyPair (session : Nat) (mech : CK_MECHANISM)
      (pubT : List CK_ATTRIBUTE) (pubCount : Nat)
      (prvT : List CK_ATTRIBUTE) (prvCount : Nat)
  | cSignInit (session : Nat) (mech : CK_MECHANISM) (key : Nat)
  | cSign (session : Nat) (data : List Nat) (dataLen : Nat) (sigBuf : Option Nat)
  | cVerifyInit (session : Nat) (mech : CK_MECHANISM) (key : Nat)
  | cVerify (session : Nat) (data : List Nat) (dataLen : Nat) (sigBuf : Option Nat) (sigLen : Nat)
  | cClose (session : Nat)
  | cFinal (pReserved : Option Nat)
deriving DecidableEq, Repr

/-- The token-API function a call invokes (forgetting its arguments). -/
inductive Op where
  | init | openSess | login | genKeyPair | signInit | sign
  | verifyInit | verify | close | final
deriving DecidableEq, Repr

def callOp : Call → Op
  | .cInit _ => .init
  | .cOpen .. => .openSess
  | .cLogin .. => .login
  | .cGenKeyPair .. => .genKeyPair
  | .cSignInit .. => .signInit
  | .cSign .. => .sign
  | .cVerifyInit .. => .verifyInit
  | .cVerify .. => .verify
  | .cClose _ => .close
  | .cFinal _ => .final

/-- The session handle a call passes, if the function takes one
(`C_OpenSession` receives the handle only as an output parameter). -/
def callSession : Call → Option Nat
  | .cLogin s .. => some s
  | .cGenKeyPair s .. => some s
  | .cSignInit s .. => some s
  | .cSign s .. => some s
  | .cVerifyInit s .. => some s
  | .cVerify s .. => some s
  | .cClose s => some s
  | _ => none

/-- The environment: what the external token library returns at each call
site of the program (return values `rv…` and the values it writes through
output pointers), together with the pointer value `malloc` returns
(`0` models a `NULL` return). -/
structure Env where
  rvInit : Nat
  rvOpen : Nat
  sessionOut : Nat
  rvLogin : Nat
  rvGen : Nat
  pubOut : Nat
  prvOut : Nat
  rvSignInit : Nat
  rvSign1 : Nat
  lenOut : Nat
  mallocRet : Nat
  rvSign2 : Nat
  lenOut2 : Nat
  rvVerifyInit : Nat
  rvVerify : Nat
  rvClose : Nat
  rvFinal : Nat
deriving DecidableEq, Repr

/-- How a run ends: `halt(rv)` prints the return value and calls `exit(-1)`;
otherwise `main` runs to completion. -/
inductive Outcome where
  | exited (printedRv : Nat) (code : Int)
  | completed
deriving DecidableEq, Repr

/-- The observable behaviour of one run: the token-API calls made in order,
the `malloc` sizes requested in order, and the outcome. -/
structure RunResult where
  trace : List Call
  mallocs : List Nat
  outcome : Outcome
deriving DecidableEq, Repr

/-- Direct transcription of `main`: each token-API call is appended to the
trace, then its return value (from the environment) is checked exactly where
the source checks it; `halt` stops the run. The return values of
`C_CloseSession` and `C_Finalize` are not inspected, as in the source. -/
def run (env : Env) : RunResult :=
  let slot_id : Nat := 0
  let t1 := [Call.cInit none]
  if env.rvInit ≠ CKR_OK then ⟨t1, [], .exited env.rvInit (-1)⟩ else
  let t2 := t1 ++ [Call.cOpen slot_id (CKF_SERIAL_SESSION ||| CKF_RW_SESSION) 0 0]
  if env.rvOpen ≠ CKR_OK then ⟨t2, [], .exited env.rvOpen (-1)⟩ else
  let hSession := env.sessionOut
  let t3 := t2 ++ [Call.cLogin hSession CKU_USER (cstr password) (strlen password)]
  if env.rvLogin ≠ CKR_OK then ⟨t3, [], .exited env.rvLogin (-1)⟩ else
  let t4 := t3 ++ [Call.cGenKeyPair hSession ecdsa_gen
      pub_template pub_template.length prv_template prv_template.length]
  if env.rvGen ≠ CKR_OK then ⟨t4, [], .exited env.rvGen (-1)⟩ else
  let pub_key := env.pubOut
  let prv_key := env.prvOut
  let t5 := t4 ++ [Call.cSignInit hSession ecdsa_sign prv_key]
  if env.rvSignInit ≠ CKR_OK then ⟨t5, [], .exited env.rvSignInit (-1)⟩ else
  let t6 := t5 ++ [Call.cSign hSession data_to_sign data_to_sign.length none]
  if env.rvSign1 ≠ CKR_OK then ⟨t6, [], .exited env.rvSign1 (-1)⟩ else
  let signature_len := env.lenOut
  let signature := env.mallocRet
  let ms := [signature_len]
  let t7 := t6 ++ [Call.cSign hSession data_to_sign data_to_sign.length (some signature)]
  if env.rvSign2 ≠ CKR_OK then ⟨t7, ms, .exited env.rvSign2 (-1)⟩ else
  let signature_len2 := env.lenOut2
  let t8 := t7 ++ [Call.cVerifyInit hSession ecdsa_sign pub_key]
  if env.rvVerifyInit ≠ CKR_OK then ⟨t8, ms, .exited env.rvVerifyInit (-1)⟩ else
  let t9 := t8 ++ [Call.cVerify hSession data_to_sign data_to_sign.length
      (some signature) signature_len2]
  if env.rvVerify ≠ CKR_OK then ⟨t9, ms, .exited env.rvVerify (-1)⟩ else
  let t10 := t9 ++ [Call.cClose hSession]
  let t11 := t10 ++ [Call.cFinal none]
  ⟨t11, ms, .completed⟩

/-- The trace of a run in which every checked call succeeds. -/
def okTrace (env : Env) : List Call :=
  [Call.cInit none,
   Call.cOpen 0 (CKF_SERIAL_SESSION ||| CKF_RW_SESSION) 0 0,
   Call.cLogin env.sessionOut CKU_USER (cstr password) (strlen password),
   Call.cGenKeyPair env.sessionOut ecdsa_gen
     pub_template pub_template.length prv_template prv_template.length,
   Call.cSignInit env.sessionOut ecdsa_sign env.prvOut,
   Call.cSign env.sessionOut data_to_sign data_to_sign.length none,
   Call.cSign env.sessionOut data_to_sign data_to_sign.length (some env.mallocRet),
   Call.cVerifyInit env.sessionOut ecdsa_sign env.pubOut,
   Call.cVerify env.sessionOut data_to_sign data_to_sign.length
     (some env.mallocRet) env.lenOut2,
   Call.cClose env.sessionOut,
   Call.cFinal none]

/-- Return value of the `k`-th call of the run, for the nine calls whose
return value the program checks (calls 9 and 10, `C_CloseSession` and
`C_Finalize`, are unchecked). -/
def checkedRv (env : Env) : Nat → Nat
  | 0 => env.rvInit
  | 1 => env.rvOpen
  | 2 => env.rvLogin
  | 3 => env.rvGen
  | 4 => env.rvSignInit
  | 5 => env.rvSign1
  | 6 => env.rvSign2
  | 7 => env.rvVerifyInit
  | 8 => env.rvVerify
  | _ => CKR_OK

/-- All nine checked calls succeed. -/
def allOk (env : Env) : Prop :=
  env.rvInit = CKR_OK ∧ env.rvOpen = CKR_OK ∧ env.rvLogin = CKR_OK ∧
  env.rvGen = CKR_OK ∧ env.rvSignInit = CKR_OK ∧ env.rvSign1 = CKR_OK ∧
  env.rvSign2 = CKR_OK ∧ env.rvVerifyInit = CKR_OK ∧ env.rvVerify = CKR_OK

instance (env : Env) : Decidable (allOk env) := by unfold allOk; infer_instance

/-- An environment in which every call succeeds (concrete values for the
output parameters). -/
def envOK : Env := ⟨0, 0, 7, 0, 0, 3, 4, 0, 0, 64, 1000, 0, 64, 0, 0, 0, 0⟩

lemma run_ok (env : Env) (h : allOk env) :
    run env = ⟨okTrace env, [env.lenOut], .completed⟩ := by
  obtain ⟨h1, h2, h3, h4, h5, h6, h7, h8, h9⟩ := h
  simp [run, okTrace, h1, h2, h3, h4, h5, h6, h7, h8, h9]

/-- Every trace the program can produce is an initial segment of `okTrace`,
cut at the first failing checked call. -/
lemma run_take (env : Env) :
    ∃ n, 1 ≤ n ∧ n ≤ 11 ∧ (run env).trace = (okTrace env).take n := by
  by_cases h1 : env.rvInit = CKR_OK
  · by_cases h2 : env.rvOpen = CKR_OK
    · by_cases h3 : env.rvLogin = CKR_OK
      · by_cases h4 : env.rvGen = CKR_OK
        · by_cases h5 : env.rvSignInit = CKR_OK
          · by_cases h6 : env.rvSign1 = CKR_OK
            · by_cases h7 : env.rvSign2 = CKR_OK
              · by_cases h8 : env.rvVerifyInit = CKR_OK
                · by_cases h9 : env.rvVerify = CKR_OK
                  · exact ⟨11, by omega, by omega,
                      by simp [run, okTrace, h1, h2, h3, h4, h5, h6, h7, h8, h9]⟩
                  · exact ⟨9, by omega, by omega,
                      by simp [run, okTrace, h1, h2, h3, h4, h5, h6, h7, h8, h9]⟩
                · exact ⟨8, by omega, by omega,
                    by simp [run, okTrace, h1, h2, h3, h4, h5, h6, h7, h8]⟩
              · exact ⟨7, by omega, by omega,
                  by simp [run, okTrace, h1, h2, h3, h4, h5, h6, h7]⟩
            · exact ⟨6, by omega, by omega,
                by simp [run, okTrace, h1, h2, h3, h4, h5, h6]⟩
          · exact ⟨5, by omega, by omega, by simp [run, okTrace, h1, h2, h3, h4, h5]⟩
        · exact ⟨4, by omega, by omega, by simp [run, okTrace, h1, h2, h3, h4]⟩
      · exact ⟨3, by omega, by omega, by simp [run, okTrace, h1, h2, h3]⟩
    · exact ⟨2, by omega, by omega, by simp [run, okTrace, h1, h2]⟩
  · exact ⟨1, by omega, by omega, by simp [run, okTrace, h1]⟩

/-- An environment in which `C_Login` fails (rv `0xa0`, `CKR_PIN_INCORRECT`)
and every other call succeeds. -/
def envLoginFail : Env := ⟨0, 0, 7, 0xa0, 0, 3, 4, 0, 0, 64, 1000, 0, 64, 0, 0, 0, 0⟩

/-- An environment in which every checked call succeeds but `C_CloseSession`
fails (rv `0xb3`, `CKR_SESSION_HANDLE_INVALID`). -/
def envCloseFail : Env := ⟨0, 0, 7, 0, 0, 3, 4, 0, 0, 64, 1000, 0, 64, 0, 0, 0xb3, 0⟩

/-- An environment in which every call succeeds but `malloc` returns `NULL`. -/
def envNullMalloc : Env := ⟨0, 0, 7, 0, 0, 3, 4, 0, 0, 64, 0, 0, 64, 0, 0, 0, 0⟩

/-- Complete case analysis of a run: either all nine checked calls succeed
and the run completes with the full trace, or there is a first failing
checked call `k`, the run prints its return value and exits with code `-1`,
and the trace stops at call `k`. -/
lemma run_cases (env : Env) :
    (allOk env ∧ run env = ⟨okTrace env, [env.lenOut], .completed⟩) ∨
    (∃ k, k < 9 ∧ checkedRv env k ≠ CKR_OK ∧
      (∀ j, j < k → checkedRv env j = CKR_OK) ∧
      run env = ⟨(okTrace env).take (k + 1), if 6 ≤ k then [env.lenOut] else [],
        .exited (checkedRv env k) (-1)⟩) := by
  by_cases h1 : env.rvInit = CKR_OK
  · by_cases h2 : env.rvOpen = CKR_OK
    · by_cases h3 : env.rvLogin = CKR_OK
      · by_cases h4 : env.rvGen = CKR_OK
        · by_cases h5 : env.rvSignInit = CKR_OK
          · by_cases h6 : env.rvSign1 = CKR_OK
            · by_cases h7 : env.rvSign2 = CKR_OK
              · by_cases h8 : env.rvVerifyInit = CKR_OK
                · by_cases h9 : env.rvVerify = CKR_OK
                  · exact Or.inl ⟨⟨h1, h2, h3, h4, h5, h6, h7, h8, h9⟩,
                      run_ok env ⟨h1, h2, h3, h4, h5, h6, h7, h8, h9⟩⟩
                  · refine Or.inr ⟨8, by omega, by simpa [checkedRv] using h9, ?_, ?_⟩
                    · intro j hj; interval_cases j <;>
                        simp [checkedRv, h1, h2, h3, h4, h5, h6, h7, h8]
                    · simp [run, okTrace, checkedRv, h1, h2, h3, h4, h5, h6, h7, h8, h9]
                · refine Or.inr ⟨7, by omega, by simpa [checkedRv] using h8, ?_, ?_⟩
                  · intro j hj; interval_cases j <;>
                      simp [checkedRv, h1, h2, h3, h4, h5, h6, h7]
                  · simp [run, okTrace, checkedRv, h1, h2, h3, h4, h5, h6, h7, h8]
              · refine Or.inr ⟨6, by omega, by simpa [checkedRv] using h7, ?_, ?_⟩
                · intro j hj; interval_cases j <;>
                    simp [checkedRv, h1, h2, h3, h4, h5, h6]
                · simp [run, okTrace, checkedRv, h1, h2, h3, h4, h5, h6, h7]
            · refine Or.inr ⟨5, by omega, by simpa [checkedRv] using h6, ?_, ?_⟩
              · intro j hj; interval_cases j <;> simp [checkedRv, h1, h2, h3, h4, h5]
              · simp [run, okTrace, checkedRv, h1, h2, h3, h4, h5, h6]
          · refine Or.inr ⟨4, by omega, by simpa [checkedRv] using h5, ?_, ?_⟩
            · intro j hj; interval_cases j <;> simp [checkedRv, h1, h2, h3, h4]
            · simp [run, okTrace, checkedRv, h1, h2, h3, h4, h5]
        · refine Or.inr ⟨3, by omega, by simpa [checkedRv] using h4, ?_, ?_⟩
          · intro j hj; interval_cases j <;> simp [checkedRv, h1, h2, h3]
          · simp [run, okTrace, checkedRv, h1, h2, h3, h4]
      · refine Or.inr ⟨2, by omega, by simpa [checkedRv] using h3, ?_, ?_⟩
        · intro j hj; interval_cases j <;> simp [checkedRv, h1, h2]
        · simp [run, okTrace, checkedRv, h1, h2, h3]
    · refine Or.inr ⟨1, by omega, by simpa [checkedRv] using h2, ?_, ?_⟩
      · intro j hj; interval_cases j; simp [checkedRv, h1]
      · simp [run, okTrace, checkedRv, h1, h2]
  · refine Or.inr ⟨0, by omega, by simpa [checkedRv] using h1, ?_, ?_⟩
    · intro j hj; omega
    · simp [run, okTrace, checkedRv, h1]

lemma completed_allOk (env : Env) (h : (run env).outcome = Outcome.completed) :
    allOk env := by
  rcases run_cases env with ⟨hok, _⟩ | ⟨k, _, _, _, hrun⟩
  · exact hok
  · rw [hrun] at h; simp at h

/-- The token-API functions invoked in a fully successful run, in order. -/
def opsAll : List Op :=
  [Op.init, Op.openSess, Op.login, Op.genKeyPair, Op.signInit, Op.sign,
   Op.sign, Op.verifyInit, Op.verify, Op.close, Op.final]

lemma okTrace_map (env : Env) : (okTrace env).map callOp = opsAll := rfl

/-- C1 counterexample: not every token-API failure is fatal. `C_CloseSession`
is a token-API call, and in a run where it returns a non-`CKR_OK` value the
program prints nothing and does not exit: the run completes and a further
token-API call, `C_Finalize`, is still performed after the failing call. -/
theorem C1_counterexample :
    envCloseFail.rvClose ≠ CKR_OK ∧
    (run envCloseFail).outcome = Outcome.completed ∧
    (run envCloseFail).trace[9]? = some (Call.cClose envCloseFail.sessionOut) ∧
    (run envCloseFail).trace[10]? = some (Call.cFinal none) := by decide

/-- C1 (amended): for each of the nine token-API calls whose return value
the program checks (`C_Initialize` through `C_Verify`), a non-`CKR_OK`
return is immediately fatal — the program prints that return value, exits
with code `-1`, and performs no further token-API call (the trace stops
exactly at the failing call). The return values of `C_CloseSession` and
`C_Finalize` are never checked: when the nine checked calls succeed the run
completes with the full eleven-call trace regardless of how close and
finalization fare. -/
theorem C1_every_error_fatal : ∀ env : Env,
    ((run env).outcome = Outcome.completed ∧ allOk env ∧
      (run env).trace = okTrace env) ∨
    (∃ k, k < 9 ∧ checkedRv env k ≠ CKR_OK ∧
      (∀ j, j < k → checkedRv env j = CKR_OK) ∧
      (run env).outcome = Outcome.exited (checkedRv env k) (-1) ∧
      (run env).trace = (okTrace env).take (k + 1)) := by
  intro env
  rcases run_cases env with ⟨hok, hrun⟩ | ⟨k, hk, hne, hmin, hrun⟩
  · exact Or.inl ⟨by rw [hrun], hok, by rw [hrun]⟩
  · exact Or.inr ⟨k, hk, hne, hmin, by rw [hrun], by rw [hrun]⟩

theorem C1_witness :
    ((run envLoginFail).outcome = Outcome.completed ∧ allOk envLoginFail ∧
      (run envLoginFail).trace = okTrace envLoginFail) ∨
    (∃ k, k < 9 ∧ checkedRv envLoginFail k ≠ CKR_OK ∧
      (∀ j, j < k → checkedRv envLoginFail j = CKR_OK) ∧
      (run envLoginFail).outcome = Outcome.exited (checkedRv envLoginFail k) (-1) ∧
      (run envLoginFail).trace = (okTrace envLoginFail).take (k + 1)) :=
  C1_every_error_fatal envLoginFail

/-- C2 counterexample: a run in which `C_CloseSession` fails still executes
`C_Finalize` and completes, because the return value of `C_CloseSession` is
never checked — so finalization is not gated on the success of the preceding step, contrary to the claim. -/
theorem C2_counterexample :
    (run envCloseFail).outcome = Outcome.completed ∧
    envCloseFail.rvClose ≠ CKR_OK ∧
    (run envCloseFail).trace.map callOp = opsAll ∧
    opsAll.getLast? = some Op.final := by decide

/-- C2 (amended): a run completes exactly when the nine checked calls all
return `CKR_OK`; a completed run performs initialization, session open,
login, key-pair generation, signing (`C_SignInit` then two `C_Sign` calls),
verification (`C_VerifyInit` then `C_Verify`), session close and
finalization in that fixed order; each call through `C_Verify` runs only
after every earlier checked call succeeded, while `C_CloseSession` and
`C_Finalize` run unconditionally after `C_Verify` succeeds, their return
values ignored. -/
theorem C2_fixed_order : ∀ env : Env,
    ((run env).outcome = Outcome.completed ↔ allOk env) ∧
    ((run env).outcome = Outcome.completed → (run env).trace.map callOp = opsAll) ∧
    (10 ≤ (run env).trace.length → allOk env) := by
  intro env
  refine ⟨⟨completed_allOk env, fun h => by rw [run_ok env h]⟩, ?_, ?_⟩
  · intro h
    rw [run_ok env (completed_allOk env h)]
    exact okTrace_map env
  · intro hlen
    rcases run_cases env with ⟨hok, _⟩ | ⟨k, hk, _, _, hrun⟩
    · exact hok
    · rw [hrun] at hlen
      have : ((okTrace env).take (k + 1)).length ≤ k + 1 :=
        List.length_take_le (k + 1) (okTrace env)
      simp only [RunResult.trace] at hlen
      omega

theorem C2_witness :
    ((run envOK).outcome = Outcome.completed ↔ allOk envOK) ∧
    ((run envOK).outcome = Outcome.completed → (run envOK).trace.map callOp = opsAll) ∧
    (10 ≤ (run envOK).trace.length → allOk envOK) :=
  C2_fixed_order envOK

/-- C3: in a successful run, `C_Verify` receives the same session, the same
data buffer, the same data length and the same signature-buffer pointer as
the second (successful) `C_Sign` call, together with the signature length
that call wrote back (`lenOut2`); `C_SignInit` uses the private-key handle
and `C_VerifyInit` the public-key handle written by `C_GenerateKeyPair`. -/
theorem C3_verify_matches_sign : ∀ env : Env, allOk env →
    ∃ s d n p,
      (run env).trace[6]? = some (Call.cSign s d n (some p)) ∧
      (run env).trace[8]? = some (Call.cVerify s d n (some p) env.lenOut2) ∧
      (run env).trace[3]? =
        some (Call.cGenKeyPair s ecdsa_gen pub_template 2 prv_template 2) ∧
      (run env).trace[4]? = some (Call.cSignInit s ecdsa_sign env.prvOut) ∧
      (run env).trace[7]? = some (Call.cVerifyInit s ecdsa_sign env.pubOut) := by
  intro env h
  rw [run_ok env h]
  exact ⟨env.sessionOut, data_to_sign, data_to_sign.length, env.mallocRet,
    by simp [okTrace], by simp [okTrace],
    by simp [okTrace, pub_template, prv_template],
    by simp [okTrace], by simp [okTrace]⟩

theorem C3_witness : allOk envOK ∧
    ∃ s d n p,
      (run envOK).trace[6]? = some (Call.cSign s d n (some p)) ∧
      (run envOK).trace[8]? = some (Call.cVerify s d n (some p) envOK.lenOut2) ∧
      (run envOK).trace[3]? =
        some (Call.cGenKeyPair s ecdsa_gen pub_template 2 prv_template 2) ∧
      (run envOK).trace[4]? = some (Call.cSignInit s ecdsa_sign envOK.prvOut) ∧
      (run envOK).trace[7]? = some (Call.cVerifyInit s ecdsa_sign envOK.pubOut) :=
  ⟨by decide, C3_verify_matches_sign envOK (by decide)⟩

/-- C4: the cryptographic choices are fixed constants passed unmodified:
key-pair generation uses mechanism `CKM_EC_KEY_PAIR_GEN` with no parameter,
the `CKA_EC_PARAMS` attribute of the public-key template is the ten DER bytes of
the P-256 curve OID, and both `C_SignInit` and `C_VerifyInit` use the same
`CKM_ECDSA_SHA256` mechanism with a `NULL` parameter. -/
theorem C4_fixed_mechanisms : ∀ env : Env, allOk env →
    (run env).trace[3]? =
      some (Call.cGenKeyPair env.sessionOut ecdsa_gen pub_template 2 prv_template 2) ∧
    ecdsa_gen = ⟨CKM_EC_KEY_PAIR_GEN, none, 0⟩ ∧
    pub_template[1]? = some ⟨CKA_EC_PARAMS, p256_curve, 10⟩ ∧
    p256_curve = [0x06, 0x08, 0x2a, 0x86, 0x48, 0xce, 0x3d, 0x03, 0x01, 0x07] ∧
    (run env).trace[4]? = some (Call.cSignInit env.sessionOut ecdsa_sign env.prvOut) ∧
    (run env).trace[7]? = some (Call.cVerifyInit env.sessionOut ecdsa_sign env.pubOut) ∧
    ecdsa_sign = ⟨CKM_ECDSA_SHA256, none, 0⟩ := by
  intro env h
  rw [run_ok env h]
  refine ⟨by simp [okTrace, pub_template, prv_template], rfl, by decide, rfl,
    by simp [okTrace], by simp [okTrace], rfl⟩

theorem C4_witness : allOk envOK ∧
    ((run envOK).trace[3]? =
      some (Call.cGenKeyPair envOK.sessionOut ecdsa_gen pub_template 2 prv_template 2) ∧
    ecdsa_gen = ⟨CKM_EC_KEY_PAIR_GEN, none, 0⟩ ∧
    pub_template[1]? = some ⟨CKA_EC_PARAMS, p256_curve, 10⟩ ∧
    p256_curve = [0x06, 0x08, 0x2a, 0x86, 0x48, 0xce, 0x3d, 0x03, 0x01, 0x07] ∧
    (run envOK).trace[4]? = some (Call.cSignInit envOK.sessionOut ecdsa_sign envOK.prvOut) ∧
    (run envOK).trace[7]? = some (Call.cVerifyInit envOK.sessionOut ecdsa_sign envOK.pubOut) ∧
    ecdsa_sign = ⟨CKM_ECDSA_SHA256, none, 0⟩) :=
  ⟨by decide, C4_fixed_mechanisms envOK (by decide)⟩

/-- C5 counterexample: a complete successful run makes eleven token-API
calls, not nine — the program calls ten distinct API functions and calls
`C_Sign` twice. -/
theorem C5_counterexample :
    (run envOK).outcome = Outcome.completed ∧
    (run envOK).trace.length = 11 ∧ (run envOK).trace.length ≠ 9 := by decide

/-- C5 (amended): a complete successful run consists of exactly eleven calls
into the token API — the ten distinct functions of `opsAll`, with `C_Sign`
invoked twice — and no other token operations. -/
theorem C5_eleven_calls : ∀ env : Env, (run env).outcome = Outcome.completed →
    (run env).trace.length = 11 ∧ (run env).trace.map callOp = opsAll := by
  intro env h
  rw [run_ok env (completed_allOk env h)]
  exact ⟨rfl, okTrace_map env⟩

theorem C5_witness : (run envOK).outcome = Outcome.completed ∧
    ((run envOK).trace.length = 11 ∧ (run envOK).trace.map callOp = opsAll) :=
  ⟨by decide, C5_eleven_calls envOK (by decide)⟩

/-- C6 counterexample: in the all-success run the operation `C_Sign` is
invoked twice, so it is not the case that no token-API operation is invoked
more than once. -/
theorem C6_counterexample :
    ((run envOK).trace.map callOp).count Op.sign = 2 ∧
    ¬ ((run envOK).trace.map callOp).count Op.sign ≤ 1 := by decide

/-- C6 (amended): the program is straight-line — in every run each token-API
operation other than `C_Sign` is invoked at most once, and `C_Sign` is
invoked at most twice (exactly twice in a completed run, for the
length-query pattern). -/
theorem C6_straight_line : ∀ env : Env,
    (∀ op : Op, op ≠ Op.sign → ((run env).trace.map callOp).count op ≤ 1) ∧
    ((run env).trace.map callOp).count Op.sign ≤ 2 ∧
    ((run env).outcome = Outcome.completed →
      ((run env).trace.map callOp).count Op.sign = 2) := by
  intro env
  obtain ⟨n, -, -, htr⟩ := run_take env
  have hmap : (run env).trace.map callOp = opsAll.take n := by
    rw [htr, List.map_take, okTrace_map]
  refine ⟨?_, ?_, ?_⟩
  · intro op hop
    rw [hmap]
    have hle := ((List.take_sublist n opsAll).subperm).count_le op
    have hone : opsAll.count op ≤ 1 := by
      cases op
      case sign => exact absurd rfl hop
      all_goals decide
    omega
  · rw [hmap]
    have hle := ((List.take_sublist n opsAll).subperm).count_le Op.sign
    have htwo : opsAll.count Op.sign ≤ 2 := by decide
    omega
  · intro h
    rw [run_ok env (completed_allOk env h)]
    show ((okTrace env).map callOp).count Op.sign = 2
    rw [okTrace_map]
    decide

theorem C6_witness :
    (∀ op : Op, op ≠ Op.sign → ((run envOK).trace.map callOp).count op ≤ 1) ∧
    ((run envOK).trace.map callOp).count Op.sign ≤ 2 ∧
    ((run envOK).outcome = Outcome.completed →
      ((run envOK).trace.map callOp).count Op.sign = 2) :=
  C6_straight_line envOK

/-- C7: the only slot identifier ever passed is the constant `0`, and every
token-API call that takes a session handle receives the one handle that
`C_OpenSession` wrote (`env.sessionOut`), in every run. -/
theorem C7_single_session_slot_zero : ∀ env : Env,
    (∀ c ∈ (run env).trace, ∀ s, callSession c = some s → s = env.sessionOut) ∧
    (∀ slotId flags app ncb,
      Call.cOpen slotId flags app ncb ∈ (run env).trace → slotId = 0) := by
  intro env
  obtain ⟨n, -, -, htr⟩ := run_take env
  constructor
  · intro c hc s hs
    rw [htr] at hc
    have hc' := (List.take_sublist n (okTrace env)).subset hc
    simp only [okTrace, List.mem_cons, List.not_mem_nil, or_false] at hc'
    rcases hc' with rfl | rfl | rfl | rfl | rfl | rfl | rfl | rfl | rfl | rfl | rfl <;>
      simp_all [callSession]
  · intro slotId flags app ncb hmem
    rw [htr] at hmem
    have hm := (List.take_sublist n (okTrace env)).subset hmem
    simp only [okTrace, List.mem_cons, List.not_mem_nil, or_false] at hm
    rcases hm with h | h | h | h | h | h | h | h | h | h | h <;> simp_all

theorem C7_witness :
    (∀ c ∈ (run envOK).trace, ∀ s, callSession c = some s → s = envOK.sessionOut) ∧
    (∀ slotId flags app ncb,
      Call.cOpen slotId flags app ncb ∈ (run envOK).trace → slotId = 0) :=
  C7_single_session_slot_zero envOK

/-- The first six checked calls (through the length-query `C_Sign`) succeed,
so the run reaches `malloc` and the second `C_Sign`. -/
def okThroughSign1 (env : Env) : Prop :=
  env.rvInit = CKR_OK ∧ env.rvOpen = CKR_OK ∧ env.rvLogin = CKR_OK ∧
  env.rvGen = CKR_OK ∧ env.rvSignInit = CKR_OK ∧ env.rvSign1 = CKR_OK

instance (env : Env) : Decidable (okThroughSign1 env) := by
  unfold okThroughSign1; infer_instance

/-- C8: once the length-query `C_Sign` (call 5, with `NULL` signature buffer)
succeeds, `malloc` is invoked exactly once with the returned length, and the
second `C_Sign` (call 6) receives the same data arguments together with
whatever pointer `malloc` returned — with no `NULL` check, since the
conclusion holds for every `mallocRet`, including `0`. -/
theorem C8_two_call_sign : ∀ env : Env, okThroughSign1 env →
    (run env).trace[5]? =
      some (Call.cSign env.sessionOut data_to_sign data_to_sign.length none) ∧
    (run env).mallocs = [env.lenOut] ∧
    (run env).trace[6]? =
      some (Call.cSign env.sessionOut data_to_sign data_to_sign.length
        (some env.mallocRet)) := by
  intro env h
  obtain ⟨h1, h2, h3, h4, h5, h6⟩ := h
  rcases run_cases env with ⟨-, hrun⟩ | ⟨k, hk9, hne, -, hrun⟩
  · rw [hrun]
    exact ⟨by simp [okTrace], rfl, by simp [okTrace]⟩
  · have hk6 : 6 ≤ k := by
      by_contra hlt
      push_neg at hlt
      interval_cases k <;> simp [checkedRv, h1, h2, h3, h4, h5, h6] at hne
    rw [hrun]
    refine ⟨?_, by simp [hk6], ?_⟩
    · show ((okTrace env).take (k + 1))[5]? = _
      rw [List.getElem?_take]
      simp only [show 5 < k + 1 by omega, if_true]
      simp [okTrace]
    · show ((okTrace env).take (k + 1))[6]? = _
      rw [List.getElem?_take]
      simp only [show 6 < k + 1 by omega, if_true]
      simp [okTrace]

theorem C8_witness : okThroughSign1 envNullMalloc ∧ envNullMalloc.mallocRet = 0 ∧
    ((run envNullMalloc).trace[5]? =
      some (Call.cSign envNullMalloc.sessionOut data_to_sign data_to_sign.length none) ∧
    (run envNullMalloc).mallocs = [envNullMalloc.lenOut] ∧
    (run envNullMalloc).trace[6]? =
      some (Call.cSign envNullMalloc.sessionOut data_to_sign data_to_sign.length
        (some envNullMalloc.mallocRet))) :=
  ⟨by decide, by decide, C8_two_call_sign envNullMalloc (by decide)⟩

/-- C9: the signed byte string is the 13-byte array holding the 12
characters of `"data to sign"` plus the terminating NUL, and both `C_Sign`
calls and the `C_Verify` call pass `sizeof(data_to_sign) = 13` as the data
length. -/
theorem C9_data_includes_nul : ∀ env : Env, allOk env →
    data_to_sign = [100, 97, 116, 97, 32, 116, 111, 32, 115, 105, 103, 110, 0] ∧
    data_to_sign.length = 13 ∧
    (run env).trace[5]? = some (Call.cSign env.sessionOut data_to_sign 13 none) ∧
    (run env).trace[6]? =
      some (Call.cSign env.sessionOut data_to_sign 13 (some env.mallocRet)) ∧
    (run env).trace[8]? =
      some (Call.cVerify env.sessionOut data_to_sign 13 (some env.mallocRet)
        env.lenOut2) := by
  intro env h
  rw [run_ok env h]
  refine ⟨by decide, by decide, ?_, ?_, ?_⟩ <;> simp [okTrace] <;> decide

theorem C9_witness : allOk envOK ∧
    (data_to_sign = [100, 97, 116, 97, 32, 116, 111, 32, 115, 105, 103, 110, 0] ∧
    data_to_sign.length = 13 ∧
    (run envOK).trace[5]? = some (Call.cSign envOK.sessionOut data_to_sign 13 none) ∧
    (run envOK).trace[6]? =
      some (Call.cSign envOK.sessionOut data_to_sign 13 (some envOK.mallocRet)) ∧
    (run envOK).trace[8]? =
      some (Call.cVerify envOK.sessionOut data_to_sign 13 (some envOK.mallocRet)
        envOK.lenOut2)) :=
  ⟨by decide, C9_data_includes_nul envOK (by decide)⟩

/-- C10: whenever the login call is reached, it is made with user type
`CKU_USER` and the hard-coded empty password: the PIN buffer is the empty
C string (a single NUL byte) and the PIN length is `strlen("") = 0`. -/
theorem C10_login_empty_pin : ∀ env : Env,
    env.rvInit = CKR_OK → env.rvOpen = CKR_OK →
    (run env).trace[2]? =
      some (Call.cLogin env.sessionOut CKU_USER (cstr password) (strlen password)) ∧
    password = "" ∧ cstr password = [0] ∧ strlen password = 0 ∧ CKU_USER = 1 := by
  intro env h1 h2
  refine ⟨?_, rfl, by decide, rfl, rfl⟩
  rcases run_cases env with ⟨-, hrun⟩ | ⟨k, hk9, hne, -, hrun⟩
  · rw [hrun]; simp [okTrace]
  · have hk2 : 2 ≤ k := by
      by_contra hlt
      push_neg at hlt
      interval_cases k <;> simp [checkedRv, h1, h2] at hne
    rw [hrun]
    show ((okTrace env).take (k + 1))[2]? = _
    rw [List.getElem?_take]
    simp only [show 2 < k + 1 by omega, if_true]
    simp [okTrace]

theorem C10_witness : envOK.rvInit = CKR_OK ∧ envOK.rvOpen = CKR_OK ∧
    ((run envOK).trace[2]? =
      some (Call.cLogin envOK.sessionOut CKU_USER (cstr password) (strlen password)) ∧
    password = "" ∧ cstr password = [0] ∧ strlen password = 0 ∧ CKU_USER = 1) :=
  ⟨by decide, by decide, C10_login_empty_pin envOK (by decide) (by decide)⟩

end EcdsaSign
